import Mathlib

/-!
Verification of the request-gating pipeline of `startup-web-light`
(`src/lib/rateLimit.ts` and `middleware.ts`), shallowly embedded in Lean.

Timestamps are milliseconds since epoch, modelled as `Int` (the JavaScript
arithmetic involved is exact integer arithmetic within the double-safe range).
The process-wide `rateLimitStore` (a `Map<string, IRateLimitEntry>`) is
modelled as a total function from identifiers to timestamp lists; a missing
map entry and an entry holding an empty timestamp list behave identically in
every operation the claims touch, so the function model conflates them.
-/

namespace Gate

/-- Result record of one rate-limit check (`IRateLimitResult` in
`src/lib/rateLimit.ts`): `success`, `remaining`, `reset`. -/
structure IRateLimitResult where
  success : Bool
  remaining : Int
  reset : Int
  deriving Repr, DecidableEq

/-- The timestamps of `entry.timestamps` that survive the expiry filter
`entry.timestamps.filter(t => t > windowStart)` with
`windowStart = now - windowMs`. -/
def survivors (windowMs now : Int) (ts : List Int) : List Int :=
  ts.filter fun t => decide (now - windowMs < t)

/-- Core of the closure returned by `createRateLimiter(limit, windowMs)`,
acting on the timestamp list of one identifier:
drop expired timestamps; if the surviving count reaches `limit`, reject with
`remaining = 0` and `reset = oldest surviving + windowMs`
(`entry.timestamps[0] + windowMs`; the `headD 0` default is unreachable for
`limit ≥ 1`); otherwise push `now` and accept with
`remaining = limit - entry.timestamps.length` (length taken after the push)
and `reset = now + windowMs`. -/
def checkEntry (limit : Nat) (windowMs now : Int) (ts : List Int) :
    IRateLimitResult × List Int :=
  let surv := survivors windowMs now ts
  if limit ≤ surv.length then
    ({ success := false, remaining := 0, reset := surv.headD 0 + windowMs },
     surv)
  else
    ({ success := true,
       remaining := (limit : Int) - ((surv.length : Int) + 1),
       reset := now + windowMs },
     surv ++ [now])

/-- The process-wide `rateLimitStore`, keyed by the identifier string only. -/
def Store : Type := String → List Int

/-- The store holding no timestamps for any identifier. -/
def emptyStore : Store := fun _ => []

/-- Overwriting one identifier's entry (`rateLimitStore.set`). -/
def setEntry (s : Store) (id : String) (ts : List Int) : Store :=
  fun k => if k = id then ts else s k

/-- The closure returned by `createRateLimiter(limit, windowMs)`: one check
for `identifier` at instant `now` against the shared store. -/
def createRateLimiter (limit : Nat) (windowMs : Int) (identifier : String)
    (now : Int) (s : Store) : IRateLimitResult × Store :=
  let r := checkEntry limit windowMs now (s identifier)
  (r.1, setEntry s identifier r.2)

/-- The limiter for verified subjects: `createRateLimiter(50, 10 * 1000)`. -/
def rateLimit : String → Int → Store → IRateLimitResult × Store :=
  createRateLimiter 50 10000

/-- The limiter for public routes: `createRateLimiter(10, 10 * 1000)`. -/
def publicRateLimit : String → Int → Store → IRateLimitResult × Store :=
  createRateLimiter 10 10000

/-- A sequence of checks against one identifier's entry: each element of
`times` is the clock reading of one call; the list of `success` flags is
returned in order. -/
def runChecks (limit : Nat) (windowMs : Int) :
    List Int → List Int → List Bool
  | [], _ => []
  | now :: rest, entry =>
    let r := checkEntry limit windowMs now entry
    r.1.success :: runChecks limit windowMs rest r.2

/-- JavaScript prefix test `s.startsWith(pre)`, on the character sequence. -/
def jsStartsWith (s pre : String) : Bool :=
  pre.data.isPrefixOf s.data

/-- JavaScript suffix test `s.endsWith(suf)`, on the character sequence. -/
def jsEndsWith (s suf : String) : Bool :=
  suf.data.isSuffixOf s.data

/-- JavaScript `s.slice(0, -n)`: the string without its last `n` characters. -/
def jsSliceDropRight (s : String) (n : Nat) : String :=
  String.mk (s.data.take (s.data.length - n))

/-- The `PUBLIC_ROUTES` allowlist of `middleware.ts`. -/
def PUBLIC_ROUTES : List String :=
  ["/api/health", "/api/webhooks/*"]

/-- Route classifier `isPublicRoute(pathname)`: some pattern matches, where a
pattern ending in `/*` matches by prefix (the `/*` stripped via
`route.slice(0, -2)`) and any other pattern by string equality. -/
def isPublicRoute (pathname : String) : Bool :=
  PUBLIC_ROUTES.any fun route =>
    if jsEndsWith route "/*" then jsStartsWith pathname (jsSliceDropRight route 2)
    else pathname == route

/-- A response header value. `num n` stands for `n.toString()`;
`isoDate m` stands for `new Date(m).toISOString()`, the ISO-8601 rendering of
the instant `m` (the calendar formatting itself is not modelled). -/
inductive HVal where
  | str (s : String)
  | num (n : Int)
  | isoDate (millis : Int)
  deriving Repr, DecidableEq

/-- JavaScript truthiness of an optional environment string: absent and empty
values are falsy. -/
def jsTruthy : Option String → Bool
  | none => false
  | some v => v != ""

/-- The `Math.ceil(a / b)` of the `Retry-After` computation, for integral `a`
and positive `b`. -/
def ceilDiv (a b : Int) : Int :=
  -((-a).fdiv b)

/-- The baseline security headers set unconditionally on the pass-through
response `res` in `middleware.ts` (the CSP string is the result of collapsing
the template literal's whitespace runs). -/
def securityHeaders : List (String × HVal) :=
  [("X-Frame-Options", HVal.str "DENY"),
   ("X-Content-Type-Options", HVal.str "nosniff"),
   ("X-XSS-Protection", HVal.str "1; mode=block"),
   ("Referrer-Policy", HVal.str "strict-origin-when-cross-origin"),
   ("Permissions-Policy", HVal.str "camera=(), microphone=(), geolocation=()"),
   ("Content-Security-Policy", HVal.str
     "default-src \x27self\x27; script-src \x27self\x27 \x27unsafe-inline\x27 \x27unsafe-eval\x27; style-src \x27self\x27 \x27unsafe-inline\x27; img-src \x27self\x27 blob: data: https:; font-src \x27self\x27; object-src \x27none\x27; base-uri \x27self\x27; form-action \x27self\x27; frame-ancestors \x27none\x27; upgrade-insecure-requests;")]

/-- The static CORS headers that `next.config.js` declares for every
`/api/:path*` response, parameterized by the `ALLOWED_ORIGIN` environment
value (`process.env.ALLOWED_ORIGIN || '*'`). They are applied by the
platform's static header configuration, not by `middleware.ts`. -/
def corsHeaders (allowedOrigin : Option String) : List (String × HVal) :=
  [("Access-Control-Allow-Credentials", HVal.str "true"),
   ("Access-Control-Allow-Origin",
     HVal.str (if jsTruthy allowedOrigin then allowedOrigin.getD "*" else "*")),
   ("Access-Control-Allow-Methods", HVal.str "GET,OPTIONS,PATCH,DELETE,POST,PUT"),
   ("Access-Control-Allow-Headers", HVal.str
     "X-CSRF-Token, X-Requested-With, Accept, Authorization, Content-Type, X-User-Id")]

/-- The part of the inbound request the middleware inspects: the path, the
direct address `req.ip`, and the raw `x-forwarded-for` header value (the
full comma-joined value `req.headers.get` returns, when present). -/
structure Request where
  pathname : String
  ip : Option String
  xForwardedFor : Option String
  deriving Repr, DecidableEq

/-- The Supabase environment configuration read by the middleware. -/
structure MwEnv where
  supabaseUrl : Option String
  supabaseAnonKey : Option String
  deriving Repr, DecidableEq

/-- The outcome of `supabase.auth.getUser()` on the protected path, as the
middleware consumes it: a verified subject (stable `id`, optional `email`),
or nothing when verification failed for any reason (missing or invalid
token, verifier error). -/
structure VerifiedUser where
  id : String
  email : Option String
  deriving Repr, DecidableEq

/-- The response the middleware produces: status, JSON body key/value pairs
(empty for a forwarded response), headers, and whether the request is
forwarded downstream (`NextResponse.next()`) or terminal. -/
structure Response where
  status : Nat
  forwarded : Bool
  body : List (String × String)
  headers : List (String × HVal)
  deriving Repr, DecidableEq

/-- The four headers of a 429 rejection, shared by the public and protected
branches up to the limit label: `X-RateLimit-Limit`,
`X-RateLimit-Remaining = remaining.toString()`,
`X-RateLimit-Reset = new Date(reset).toISOString()`, and
`Retry-After = Math.ceil((reset - now) / 1000).toString()`. -/
def rateLimitHeaders429 (limitLabel : String) (r : IRateLimitResult)
    (now : Int) : List (String × HVal) :=
  [("X-RateLimit-Limit", HVal.str limitLabel),
   ("X-RateLimit-Remaining", HVal.num r.remaining),
   ("X-RateLimit-Reset", HVal.isoDate r.reset),
   ("Retry-After", HVal.num (ceilDiv (r.reset - now) 1000))]

/-- The rate-limit identifier of the public branch:
`req.ip ?? req.headers.get('x-forwarded-for') ?? 'unknown'`. -/
def publicIdentifier (req : Request) : String :=
  req.ip.getD (req.xForwardedFor.getD "unknown")

/-- The middleware of `middleware.ts`, for one request at instant `now`.
`authUser` is the outcome of the credential verification that the protected
branch performs (`none` = verification failed). Returns the response and the
updated shared rate-limit store. -/
def middleware (env : MwEnv) (authUser : Option VerifiedUser) (now : Int)
    (req : Request) (s : Store) : Response × Store :=
  if isPublicRoute req.pathname then
    let r := publicRateLimit (publicIdentifier req) now s
    if r.1.success then
      ({ status := 200, forwarded := true, body := [],
         headers := securityHeaders ++
           [("X-RateLimit-Remaining", HVal.num r.1.remaining)] }, r.2)
    else
      ({ status := 429, forwarded := false,
         body := [("error", "Too many requests. Please try again later.")],
         headers := rateLimitHeaders429 "10" r.1 now }, r.2)
  else
    if jsTruthy env.supabaseUrl && jsTruthy env.supabaseAnonKey then
      match authUser with
      | none =>
        ({ status := 401, forwarded := false,
           body := [("error", "Unauthorized"),
                    ("message", "Valid authentication token required")],
           headers := [] }, s)
      | some user =>
        let r := rateLimit user.id now s
        if r.1.success then
          ({ status := 200, forwarded := true, body := [],
             headers := securityHeaders ++
               [("X-User-Id", HVal.str user.id),
                ("X-User-Email", HVal.str (user.email.getD "")),
                ("X-RateLimit-Remaining", HVal.num r.1.remaining)] }, r.2)
        else
          ({ status := 429, forwarded := false,
             body := [("error", "Too many requests"),
                      ("message", "Rate limit exceeded. Please try again later.")],
             headers := rateLimitHeaders429 "50" r.1 now }, r.2)
    else
      ({ status := 500, forwarded := false,
         body := [("error", "Server configuration error")],
         headers := [] }, s)

/-- Identifier extraction as the spec's words describe it ("from the
forwarded-for header, first value wins"): the first comma-separated element
of the header. Stated only to be compared against `publicIdentifier`, which
is the code's behavior. -/
def specPublicIdentifierFirstValue (req : Request) : String :=
  match req.ip with
  | some a => a
  | none =>
    match req.xForwardedFor with
    | some v => String.mk (v.data.takeWhile fun c => c ≠ ',')
    | none => "unknown"

/-- Store reached from the empty store by twelve subject-policy checks for
identifier `"x"` at instants 0 through 11 (all succeed, since 12 < 50);
its entry for `"x"` is the timestamp list `[0, 1, ..., 11]`. -/
def c8Store : Store :=
  (List.range 12).foldl (fun s i => (rateLimit "x" (Int.ofNat i) s).2) emptyStore

/-- Store reached from the empty store by ten subject-policy checks for
identifier `"k"` at instants 0 through 9 (all succeed, since 10 < 50). -/
def burstStore : Store :=
  (List.range 10).foldl (fun s i => (rateLimit "k" (Int.ofNat i) s).2) emptyStore

/-- When a sequence of checks all lands inside one window (each pair of check
instants is ordered and less than `W` apart), no timestamp ever expires, so
the entry simply accumulates and the i-th check (0-based) succeeds exactly
when the entry holds fewer than `limit` timestamps, i.e. when
`st.length + i < limit`. -/
theorem runChecks_eq (limit : Nat) (W : Int) (ts : List Int) :
    ∀ st : List Int,
      ts.Pairwise (fun a b => a ≤ b ∧ b - W < a) →
      (∀ x ∈ st, ∀ t ∈ ts, x ≤ t ∧ t - W < x) →
      runChecks limit W ts st =
        (List.range ts.length).map fun i => decide (st.length + i < limit) := by
  induction ts with
  | nil => intro st _ _; rfl
  | cons now rest ih =>
    intro st hp hst
    rw [List.pairwise_cons] at hp
    obtain ⟨hhead, hrest⟩ := hp
    have hnodrop : survivors W now st = st := by
      apply List.filter_eq_self.mpr
      intro a ha
      simpa using (hst a ha now (List.mem_cons_self now rest)).2
    by_cases hcap : limit ≤ st.length
    · have hstep : runChecks limit W (now :: rest) st
          = false :: runChecks limit W rest st := by
        simp [runChecks, checkEntry, hnodrop, hcap]
      rw [hstep,
        ih st hrest (fun x hx t ht => hst x hx t (List.mem_cons_of_mem now ht))]
      rw [List.length_cons, List.range_succ_eq_map, List.map_cons, List.map_map]
      refine congrArg₂ List.cons ?_ ?_
      · exact (decide_eq_false (by omega)).symm
      · apply List.map_congr_left
        intro a _
        simp only [Function.comp]
        exact (decide_eq_decide).mpr (by omega)
    · have hstep : runChecks limit W (now :: rest) st
          = true :: runChecks limit W rest (st ++ [now]) := by
        simp [runChecks, checkEntry, hnodrop, hcap]
      have hstnew : ∀ x ∈ st ++ [now], ∀ t ∈ rest, x ≤ t ∧ t - W < x := by
        intro x hx t ht
        rcases List.mem_append.mp hx with hx1 | hx2
        · exact hst x hx1 t (List.mem_cons_of_mem now ht)
        · have hx3 : x = now := by simpa using hx2
          subst hx3
          exact hhead t ht
      rw [hstep, ih (st ++ [now]) hrest hstnew]
      rw [List.length_cons, List.range_succ_eq_map, List.map_cons, List.map_map]
      refine congrArg₂ List.cons ?_ ?_
      · exact (decide_eq_true (by omega)).symm
      · apply List.map_congr_left
        intro a _
        simp only [Function.comp, List.length_append, List.length_cons,
          List.length_nil]
        exact (decide_eq_decide).mpr (by omega)

/-- A rejected check reports `remaining = 0` (the reject branch of
`createRateLimiter` returns the literal 0). -/
theorem createRateLimiter_reject_remaining (limit : Nat) (W : Int)
    (id : String) (now : Int) (s : Store)
    (h : (createRateLimiter limit W id now s).1.success = false) :
    (createRateLimiter limit W id now s).1.remaining = 0 := by
  revert h
  simp only [createRateLimiter, checkEntry]
  split
  · intro _; rfl
  · intro h; exact absurd h (by simp)

/-- C1: for a policy with limit L and window W, among any sequence of checks
for one identifier whose instants are ordered and all fall within one
W-duration window, exactly the first L checks return `allowed = true` and
every later one — in particular the (L+1)-th — returns `allowed = false`:
the i-th result (0-based) is `true` iff `i < L`. The window is exact: the
hypothesis only requires each pair of instants to be less than W apart. -/
theorem c1_sliding_window_exact (limit : Nat) (W : Int) (ts : List Int)
    (h : ts.Pairwise fun a b => a ≤ b ∧ b - W < a) :
    runChecks limit W ts [] =
      (List.range ts.length).map fun i => decide (i < limit) := by
  have h0 := runChecks_eq limit W ts [] h (by intro x hx; cases hx)
  simpa using h0

/-- Witness for C1: three checks at instants 0, 1, 2 under limit 2 and
window 10 yield `[true, true, false]`. -/
theorem c1_witness :
    (List.Pairwise (fun a b : Int => a ≤ b ∧ b - 10 < a) [0, 1, 2]) ∧
    runChecks 2 10 [0, 1, 2] [] = [true, true, false] := by
  constructor
  · decide
  · rw [c1_sliding_window_exact 2 10 [0, 1, 2] (by decide)]
    decide

/-- C2 counterexample: the claim computes `remaining = limit - count` with
`count` the surviving-timestamp count before the append, and drops only
timestamps strictly older than `now - windowMs`. The code disagrees on both
points: a first-ever check under limit 10 returns `remaining = 9`
(`limit - (count + 1)`), not `10 - 0`; and a timestamp exactly equal to
`now - windowMs` (here 0 = 10 - 10) is dropped, so the resulting entry is
`[10]`, not `[0, 10]`. -/
theorem c2_counterexample :
    (checkEntry 10 10000 0 ([] : List Int)).1.success = true ∧
    (checkEntry 10 10000 0 ([] : List Int)).1.remaining = 9 ∧
    ((9 : Int) ≠ 10 - 0) ∧
    (checkEntry 5 10 10 [(0 : Int)]).2 = [10] ∧
    ([(10 : Int)] ≠ [0, 10]) := by decide

/-- C2 (amended): a check first drops exactly the timestamps that are not
newer than `now - windowMs`; if the surviving count reaches the limit it
rejects with `remaining = 0`, leaves the entry at the survivors, and reports
`resetAtMillis` = oldest surviving timestamp + `windowMs` (oldest = head,
which under a sorted entry is minimal); otherwise it appends `now`, accepts
with `remaining = limit - (count + 1)` (the limit minus the new sequence
length), and reports `resetAtMillis = now + windowMs`. -/
theorem c2_check_characterization (limit : Nat) (W now : Int) (ts : List Int)
    (hsorted : ts.Pairwise fun a b : Int => a ≤ b) (hlim : 1 ≤ limit) :
    (∀ t ∈ ts, (t ∈ survivors W now ts ↔ now - W < t)) ∧
    (limit ≤ (survivors W now ts).length →
      (checkEntry limit W now ts).1.success = false ∧
      (checkEntry limit W now ts).1.remaining = 0 ∧
      (checkEntry limit W now ts).2 = survivors W now ts ∧
      ∃ oldest : Int,
        (survivors W now ts).head? = some oldest ∧
        (checkEntry limit W now ts).1.reset = oldest + W ∧
        ∀ x ∈ survivors W now ts, oldest ≤ x) ∧
    ((survivors W now ts).length < limit →
      (checkEntry limit W now ts).1.success = true ∧
      (checkEntry limit W now ts).1.remaining
          = (limit : Int) - (((survivors W now ts).length : Int) + 1) ∧
      (checkEntry limit W now ts).1.reset = now + W ∧
      (checkEntry limit W now ts).2 = survivors W now ts ++ [now]) := by
  refine ⟨?_, ?_, ?_⟩
  · intro t ht
    simp [survivors, List.mem_filter, ht]
  · intro hge
    have hne : survivors W now ts ≠ [] := by
      intro h0
      rw [h0] at hge
      simp at hge
      omega
    have hpw : (survivors W now ts).Pairwise (fun a b : Int => a ≤ b) :=
      hsorted.filter _
    obtain ⟨a, l, hal⟩ := List.exists_cons_of_ne_nil hne
    refine ⟨?_, ?_, ?_, a, ?_, ?_, ?_⟩
    · simp [checkEntry, hge]
    · simp [checkEntry, hge]
    · simp [checkEntry, hge]
    · rw [hal]; rfl
    · have hge2 : limit ≤ l.length + 1 := by
        rw [hal] at hge; simpa using hge
      simp [checkEntry, hge, hal, hge2]
    · intro x hx
      rw [hal] at hpw hx
      rw [List.pairwise_cons] at hpw
      rcases List.mem_cons.mp hx with h1 | h2
      · omega
      · exact hpw.1 x h2
  · intro hlt
    have hnotle : ¬ limit ≤ (survivors W now ts).length := by omega
    refine ⟨?_, ?_, ?_, ?_⟩ <;> simp [checkEntry, hnotle]

/-- Witness for C2 (amended): limit 2, window 10, a sorted entry `[0, 3]` at
instant 5: both timestamps survive, the check rejects, and the reset instant
is oldest + window = 0 + 10 = 10. -/
theorem c2_witness :
    (checkEntry 2 10 5 [(0 : Int), 3]).1.success = false ∧
    (checkEntry 2 10 5 [(0 : Int), 3]).1.reset = 10 := by
  have h := c2_check_characterization 2 10 5 [0, 3] (by decide) (by decide)
  have h2 := h.2.1 (by decide)
  refine ⟨h2.1, ?_⟩
  obtain ⟨oldest, hh, hreset, _⟩ := h2.2.2.2
  have hcomp : (survivors 10 5 [(0 : Int), 3]).head? = some 0 := by decide
  rw [hcomp] at hh
  injection hh with h3
  rw [hreset, ← h3]
  decide

/-- C3: the claim (and the repository's own documentation, which records
"Security headers present on all API responses") says every response carries
the baseline security headers. The code sets them only on the pass-through
response: a protected request failing verification receives a 401 whose
headers carry neither `X-Frame-Options` nor a `Content-Security-Policy`,
while a forwarded public response does carry them. The CORS headers come
from the static `next.config.js` header block (`corsHeaders`), not from the
middleware, and reflect the configured allowed origin. -/
theorem c3_rejection_headers :
    (middleware ⟨some "https://db.example.co", some "anonkey"⟩ none 0
        ⟨"/api/example", none, none⟩ emptyStore).1.status = 401 ∧
    (middleware ⟨some "https://db.example.co", some "anonkey"⟩ none 0
        ⟨"/api/example", none, none⟩ emptyStore).1.headers.lookup
        "X-Frame-Options" = none ∧
    (middleware ⟨some "https://db.example.co", some "anonkey"⟩ none 0
        ⟨"/api/example", none, none⟩ emptyStore).1.headers.lookup
        "Content-Security-Policy" = none ∧
    (middleware ⟨some "https://db.example.co", some "anonkey"⟩ none 0
        ⟨"/api/health", some "1.2.3.4", none⟩ emptyStore).1.forwarded = true ∧
    (middleware ⟨some "https://db.example.co", some "anonkey"⟩ none 0
        ⟨"/api/health", some "1.2.3.4", none⟩ emptyStore).1.headers.lookup
        "X-Frame-Options" = some (HVal.str "DENY") ∧
    (corsHeaders (some "https://app.example.com")).lookup
        "Access-Control-Allow-Origin"
      = some (HVal.str "https://app.example.com") := by
  decide

/-- C4: the route classifier returns public iff some configured pattern
matches — the wildcard pattern by prefix with the marker stripped, the plain
pattern by equality — and every other path is protected. With the configured
patterns this is: public iff the path equals "/api/health" or starts with
"/api/webhooks". In particular "/api/webhooks/stripe" is public and
"/api/other" is protected. -/
theorem c4_route_classifier :
    (∀ path : String,
      isPublicRoute path = true ↔
        (path = "/api/health" ∨ jsStartsWith path "/api/webhooks" = true)) ∧
    isPublicRoute "/api/webhooks/stripe" = true ∧
    isPublicRoute "/api/other" = false := by
  refine ⟨?_, by decide, by decide⟩
  intro path
  have h1 : jsEndsWith "/api/health" "/*" = false := by decide
  have h2 : jsEndsWith "/api/webhooks/*" "/*" = true := by decide
  have h3 : jsSliceDropRight "/api/webhooks/*" 2 = "/api/webhooks" := by decide
  simp [isPublicRoute, PUBLIC_ROUTES, h1, h2, h3]

/-- C5 counterexample: a public-path rate-limit rejection is a 429 whose
JSON body has no `message` key — only `error` — contradicting the claim
that every 429 body contains both keys. -/
theorem c5_counterexample :
    (middleware ⟨some "https://db.example.co", some "anonkey"⟩ none 5
        ⟨"/api/health", some "9.9.9.9", none⟩
        (setEntry emptyStore "9.9.9.9" (List.replicate 10 0))).1.status
        = 429 ∧
    (middleware ⟨some "https://db.example.co", some "anonkey"⟩ none 5
        ⟨"/api/health", some "9.9.9.9", none⟩
        (setEntry emptyStore "9.9.9.9" (List.replicate 10 0))).1.body.lookup
        "message" = none ∧
    (middleware ⟨some "https://db.example.co", some "anonkey"⟩ none 5
        ⟨"/api/health", some "9.9.9.9", none⟩
        (setEntry emptyStore "9.9.9.9" (List.replicate 10 0))).1.body.lookup
        "error" = some "Too many requests. Please try again later." := by
  decide

/-- C5 (amended): every 429 the gate emits carries
`X-RateLimit-Remaining = 0`, an ISO-8601 `X-RateLimit-Reset` of the
limiter's `resetAtMillis`, and `Retry-After = ceil((resetAtMillis - now) /
1000)`; `X-RateLimit-Limit` is the firing policy's limit ("10" on the public
path, "50" on the protected path). The body has keys `error` and `message`
on the protected path but only `error` on the public path. -/
theorem c5_429_shape (env : MwEnv) (authUser : Option VerifiedUser)
    (now : Int) (req : Request) (s : Store)
    (h429 : (middleware env authUser now req s).1.status = 429) :
    (middleware env authUser now req s).1.headers.lookup "X-RateLimit-Remaining"
        = some (HVal.num 0) ∧
    (∃ resetAt : Int,
      (middleware env authUser now req s).1.headers.lookup "X-RateLimit-Reset"
          = some (HVal.isoDate resetAt) ∧
      (middleware env authUser now req s).1.headers.lookup "Retry-After"
          = some (HVal.num (ceilDiv (resetAt - now) 1000))) ∧
    (if isPublicRoute req.pathname = true then
      (middleware env authUser now req s).1.headers.lookup "X-RateLimit-Limit"
          = some (HVal.str "10") ∧
      (middleware env authUser now req s).1.body
          = [("error", "Too many requests. Please try again later.")]
    else
      (middleware env authUser now req s).1.headers.lookup "X-RateLimit-Limit"
          = some (HVal.str "50") ∧
      (middleware env authUser now req s).1.body
          = [("error", "Too many requests"),
             ("message", "Rate limit exceeded. Please try again later.")]) := by
  cases hpub : isPublicRoute req.pathname with
  | true =>
    cases hsuc : (publicRateLimit (publicIdentifier req) now s).1.success with
    | true => simp [middleware, hpub, hsuc] at h429
    | false =>
      have hrem : (publicRateLimit (publicIdentifier req) now s).1.remaining
          = 0 :=
        createRateLimiter_reject_remaining 10 10000
          (publicIdentifier req) now s hsuc
      refine ⟨?_, ⟨(publicRateLimit (publicIdentifier req) now s).1.reset,
        ?_, ?_⟩, ?_⟩ <;>
        simp [middleware, hpub, hsuc, rateLimitHeaders429, List.lookup, hrem]
  | false =>
    cases henv : (jsTruthy env.supabaseUrl && jsTruthy env.supabaseAnonKey) with
    | false => simp [middleware, hpub, henv] at h429
    | true =>
      cases authUser with
      | none => simp [middleware, hpub, henv] at h429
      | some user =>
        cases hsuc : (rateLimit user.id now s).1.success with
        | true => simp [middleware, hpub, henv, hsuc] at h429
        | false =>
          have hrem : (rateLimit user.id now s).1.remaining = 0 :=
            createRateLimiter_reject_remaining 50 10000 user.id now s hsuc
          refine ⟨?_, ⟨(rateLimit user.id now s).1.reset, ?_, ?_⟩, ?_⟩ <;>
            simp [middleware, hpub, henv, hsuc, rateLimitHeaders429,
              List.lookup, hrem]

/-- Witness for C5 (amended): a protected request for subject "u1" whose
entry already holds 50 timestamps is rejected with
`X-RateLimit-Remaining = 0`. -/
theorem c5_witness :
    (middleware ⟨some "https://db.example.co", some "anonkey"⟩
        (some ⟨"u1", none⟩) 5 ⟨"/api/example", none, none⟩
        (setEntry emptyStore "u1" (List.replicate 50 0))).1.headers.lookup
        "X-RateLimit-Remaining" = some (HVal.num 0) :=
  (c5_429_shape ⟨some "https://db.example.co", some "anonkey"⟩
    (some ⟨"u1", none⟩) 5 ⟨"/api/example", none, none⟩
    (setEntry emptyStore "u1" (List.replicate 50 0)) (by decide)).1

/-- C6: with the verifier configuration present, every protected request
whose credential verification fails gets a terminal 401 whose body is
`error = "Unauthorized"` plus a `message`, and the rate-limit store is
completely unchanged — no timestamp is recorded for any identifier. -/
theorem c6_unauthorized (url key : String) (hurl : url ≠ "") (hkey : key ≠ "")
    (now : Int) (req : Request) (s : Store)
    (hprot : isPublicRoute req.pathname = false) :
    (middleware ⟨some url, some key⟩ none now req s).1.status = 401 ∧
    (middleware ⟨some url, some key⟩ none now req s).1.body
      = [("error", "Unauthorized"),
         ("message", "Valid authentication token required")] ∧
    (middleware ⟨some url, some key⟩ none now req s).1.forwarded = false ∧
    (middleware ⟨some url, some key⟩ none now req s).2 = s := by
  have htr : (jsTruthy (some url) && jsTruthy (some key)) = true := by
    simp [jsTruthy, hurl, hkey]
  simp [middleware, hprot, htr]

/-- Witness for C6: a protected request to "/api/example" with failed
verification on the empty store. -/
theorem c6_witness :
    (middleware ⟨some "https://db.example.co", some "anonkey"⟩ none 0
        ⟨"/api/example", none, none⟩ emptyStore).1.status = 401 ∧
    (middleware ⟨some "https://db.example.co", some "anonkey"⟩ none 0
        ⟨"/api/example", none, none⟩ emptyStore).1.body
      = [("error", "Unauthorized"),
         ("message", "Valid authentication token required")] ∧
    (middleware ⟨some "https://db.example.co", some "anonkey"⟩ none 0
        ⟨"/api/example", none, none⟩ emptyStore).1.forwarded = false ∧
    (middleware ⟨some "https://db.example.co", some "anonkey"⟩ none 0
        ⟨"/api/example", none, none⟩ emptyStore).2 = emptyStore :=
  c6_unauthorized "https://db.example.co" "anonkey" (by decide) (by decide) 0
    ⟨"/api/example", none, none⟩ emptyStore (by decide)

/-- C7 counterexample: with no direct address and the forwarded-for header
"1.2.3.4, 5.6.7.8", the code keys the limiter by the entire header value,
not by the first comma-separated value "1.2.3.4" that the claim describes
(`specPublicIdentifierFirstValue` is the claim's reading): the store entry
recorded by the check sits under the full string and the first-value key
stays empty. -/
theorem c7_counterexample :
    publicIdentifier ⟨"/api/health", none, some "1.2.3.4, 5.6.7.8"⟩
        = "1.2.3.4, 5.6.7.8" ∧
    specPublicIdentifierFirstValue
        ⟨"/api/health", none, some "1.2.3.4, 5.6.7.8"⟩ = "1.2.3.4" ∧
    ("1.2.3.4, 5.6.7.8" : String) ≠ "1.2.3.4" ∧
    (middleware ⟨some "https://db.example.co", some "anonkey"⟩ none 0
        ⟨"/api/health", none, some "1.2.3.4, 5.6.7.8"⟩ emptyStore).2
        "1.2.3.4, 5.6.7.8" = [0] ∧
    (middleware ⟨some "https://db.example.co", some "anonkey"⟩ none 0
        ⟨"/api/health", none, some "1.2.3.4, 5.6.7.8"⟩ emptyStore).2
        "1.2.3.4" = [] := by
  decide

/-- C7 (amended): the public rate-limit identifier is the direct address if
present, otherwise the entire forwarded-for header value (no first-value
extraction), otherwise the literal "unknown" — so the limiter stays total
for that traffic — and the public branch updates the store exactly at that
identifier. -/
theorem c7_identifier (env : MwEnv) (authUser : Option VerifiedUser)
    (now : Int) (req : Request) (s : Store)
    (hpub : isPublicRoute req.pathname = true) :
    (∀ a, req.ip = some a → publicIdentifier req = a) ∧
    (∀ v, req.ip = none → req.xForwardedFor = some v →
      publicIdentifier req = v) ∧
    (req.ip = none → req.xForwardedFor = none →
      publicIdentifier req = "unknown") ∧
    (middleware env authUser now req s).2
      = setEntry s (publicIdentifier req)
          ((checkEntry 10 10000 now (s (publicIdentifier req))).2) := by
  refine ⟨?_, ?_, ?_, ?_⟩
  · intro a ha; simp [publicIdentifier, ha]
  · intro v hi hv; simp [publicIdentifier, hi, hv]
  · intro hi hv; simp [publicIdentifier, hi, hv]
  · simp only [middleware, hpub, publicRateLimit, createRateLimiter,
      if_true]
    split <;> rfl

/-- Witness for C7 (amended): a public request with direct address
"1.2.3.4" is keyed by that address. -/
theorem c7_witness :
    publicIdentifier ⟨"/api/health", some "1.2.3.4", none⟩ = "1.2.3.4" :=
  (c7_identifier ⟨none, none⟩ none 0 ⟨"/api/health", some "1.2.3.4", none⟩
    emptyStore (by decide)).1 "1.2.3.4" rfl

/-- C8 counterexample: the two policies share one store, so an entry can
hold more timestamps than the public limit. After twelve subject-policy
checks for "x" at instants 0..11, the public check at 11 is rejected with
`resetAtMillis = 10000`, yet the next public check exactly at 10000 — with
no intervening checks — is still rejected, against the claim that any check
at or after `resetAtMillis` is allowed. -/
theorem c8_counterexample :
    (publicRateLimit "x" 11 c8Store).1.success = false ∧
    (publicRateLimit "x" 11 c8Store).1.reset = 10000 ∧
    (publicRateLimit "x" 10000
        ((publicRateLimit "x" 11 c8Store).2)).1.success = false := by
  decide

/-- C8 (amended): if at the rejecting check the entry's surviving count does
not exceed the policy's limit — which always holds when only that one policy
has been checking this identifier — then a subsequent check at any instant
at or past the reported `resetAtMillis`, with no intervening checks,
returns `allowed = true`. -/
theorem c8_reset_admits (limit : Nat) (W now later : Int) (ts : List Int)
    (hlim : 1 ≤ limit)
    (hcap : (survivors W now ts).length ≤ limit)
    (hrej : (checkEntry limit W now ts).1.success = false)
    (hwait : (checkEntry limit W now ts).1.reset ≤ later) :
    (checkEntry limit W later ((checkEntry limit W now ts).2)).1.success
      = true := by
  have hge : limit ≤ (survivors W now ts).length := by
    by_contra hlt
    simp only [checkEntry, if_neg hlt] at hrej
    exact absurd hrej (by decide)
  have hstate : (checkEntry limit W now ts).2 = survivors W now ts := by
    simp only [checkEntry, if_pos hge]
  have hreset : (checkEntry limit W now ts).1.reset
      = (survivors W now ts).headD 0 + W := by
    simp only [checkEntry, if_pos hge]
  have hlen : (survivors W now ts).length = limit := le_antisymm hcap hge
  have hne : survivors W now ts ≠ [] := by
    intro h0
    rw [h0] at hlen
    simp at hlen
    omega
  obtain ⟨a, l, hal⟩ := List.exists_cons_of_ne_nil hne
  have hheadD : (survivors W now ts).headD 0 = a := by rw [hal]; rfl
  have hamem : a ∈ survivors W now ts := by
    rw [hal]; exact List.mem_cons_self a l
  have hdrop : ¬ (later - W < a) := by
    rw [hreset, hheadD] at hwait
    omega
  have hlt2 : (survivors W later (survivors W now ts)).length < limit := by
    have hstrict : (survivors W later (survivors W now ts)).length
        < (survivors W now ts).length := by
      apply List.length_filter_lt_length_iff_exists.mpr
      exact ⟨a, hamem, by simpa using hdrop⟩
    omega
  rw [hstate]
  simp only [checkEntry, if_neg (by omega :
    ¬ limit ≤ (survivors W later (survivors W now ts)).length)]

/-- Witness for C8 (amended): limit 1, window 10, entry `[0]`: the check at
0 rejects with reset 10, and the check at 10 is allowed. -/
theorem c8_witness :
    (checkEntry 1 10 10 ((checkEntry 1 10 0 [(0 : Int)]).2)).1.success
      = true :=
  c8_reset_admits 1 10 0 10 [0] (by decide) (by decide) (by decide)
    (by decide)

/-- C9: a check for one identifier, under either policy, leaves any other
identifier's stored timestamp sequence unchanged, and therefore any
subsequent check result for the other identifier is the same as if the
first check had never happened. -/
theorem c9_isolation (id1 id2 : String) (h : id1 ≠ id2)
    (t1 t2 : Int) (s : Store) :
    ((rateLimit id1 t1 s).2 id2 = s id2) ∧
    ((publicRateLimit id1 t1 s).2 id2 = s id2) ∧
    ((rateLimit id2 t2 ((rateLimit id1 t1 s).2)).1
        = (rateLimit id2 t2 s).1) ∧
    ((publicRateLimit id2 t2 ((publicRateLimit id1 t1 s).2)).1
        = (publicRateLimit id2 t2 s).1) := by
  have key : ∀ ts : List Int, setEntry s id1 ts id2 = s id2 := by
    intro ts
    simp [setEntry, Ne.symm h]
  refine ⟨key _, key _, ?_, ?_⟩
  · show (createRateLimiter 50 10000 id2 t2 _).1 = _
    simp only [createRateLimiter, rateLimit]
    rw [key]
  · show (createRateLimiter 10 10000 id2 t2 _).1 = _
    simp only [createRateLimiter, publicRateLimit]
    rw [key]

/-- Witness for C9: identifiers "a" and "b" on the empty store. -/
theorem c9_witness :
    ((rateLimit "a" 0 emptyStore).2 "b" = emptyStore "b") ∧
    ((publicRateLimit "a" 0 emptyStore).2 "b" = emptyStore "b") ∧
    ((rateLimit "b" 1 ((rateLimit "a" 0 emptyStore).2)).1
        = (rateLimit "b" 1 emptyStore).1) ∧
    ((publicRateLimit "b" 1 ((publicRateLimit "a" 0 emptyStore).2)).1
        = (publicRateLimit "b" 1 emptyStore).1) :=
  c9_isolation "a" "b" (by decide) 0 1 emptyStore

/-- C10: both policy instances read and write the single shared store keyed
only by the identifier string — a subject-policy check writes the very entry
the public policy reads for an equal string. Concretely: after ten
subject-policy checks for "k" (none of them public), the subject policy
still accepts "k" (10 < 50) while the public policy already rejects it
(10 ≥ 10), its whole quota consumed by the other policy's checks. -/
theorem c10_shared_store :
    (∀ (s : Store) (id : String) (now : Int),
        (rateLimit id now s).2 id = (checkEntry 50 10000 now (s id)).2 ∧
        (publicRateLimit id now s).1 = (checkEntry 10 10000 now (s id)).1) ∧
    (rateLimit "k" 9 burstStore).1.success = true ∧
    (publicRateLimit "k" 9 burstStore).1.success = false := by
  refine ⟨?_, by decide, by decide⟩
  intro s id now
  constructor
  · simp [rateLimit, createRateLimiter, setEntry]
  · rfl

end Gate
